import Mathlib

/-!
Verification of the process lifecycle engine of the memory-watcher tool
(src/main.rs, src/process_utils.rs), shallowly embedded in Lean.

OS interactions (the libc kill syscall, the /proc process table, and
process spawning) are modelled as explicit oracle values passed to the
embedded functions: each function consumes exactly the observations the
Rust code would make, in the same order, and every branch of the Rust
code is mirrored. Abnormal termination (the Rust unreachable and panic
macros) is modelled as the value none of an Option layer.
-/

namespace MemoryWatcher

/-- Environment of a process: a finite mapping of variable names to values,
modelling the Rust HashMap of OsString to OsString. -/
abbrev EnvMap := List (String × String)

/-- Information on a running program, mirroring the Rust struct ProcessInfo
field by field (pid, rss in bytes, environment, start time, command name). -/
structure ProcessInfo where
  pid : Int
  rss : Nat
  env : EnvMap
  start_time : Nat
  command : String
deriving DecidableEq

/-- Error returned by the signal dispatcher, mirroring the Rust enum KillError. -/
inductive KillError where
  | invalidSignal (signal : Int)
  | permissionDenied (signal : Int) (pid : Int)
  | notFound (pid : Int)
deriving DecidableEq

/-- Linux errno for an invalid argument (EINVAL). -/
def EINVAL : Int := 22

/-- Linux errno for operation not permitted (EPERM). -/
def EPERM : Int := 1

/-- Linux errno for no such process (ESRCH). -/
def ESRCH : Int := 3

/-- Standard graceful-termination signal number (SIGTERM). -/
def SIGTERM : Int := 15

/-- Outcome of one invocation of the libc kill primitive, as observed by the
caller: the return code, and the errno value that would be read if the
return code is -1. -/
structure KillOutcome where
  code : Int
  errno : Int
deriving DecidableEq

/-- Embedding of the Rust function send_signal: dispatches on the return code
of kill, reading errno on failure; an unexpected errno or return code hits
an unreachable or panic branch, modelled as none. -/
def send_signal (pid : Int) (signal : Int) (k : KillOutcome) :
    Option (Except KillError Unit) :=
  if k.code = 0 then some (Except.ok ())
  else if k.code = -1 then
    if k.errno = EINVAL then some (Except.error (KillError.invalidSignal signal))
    else if k.errno = EPERM then some (Except.error (KillError.permissionDenied signal pid))
    else if k.errno = ESRCH then some (Except.error (KillError.notFound pid))
    else none
  else none

/-- Error raised while reading the /proc table, abstracting procfs ProcError
into the cases the watcher distinguishes only by propagating them. -/
inductive ProcErr where
  | notFound
  | permissionDenied
  | other
deriving DecidableEq

/-- High-level error of the Stop Waiter, mirroring the Rust enum WaitStopError. -/
inductive WaitStopError where
  | sendSignal0 (pid : Int) (e : KillError)
  | getProcessInfo (pid : Int) (e : ProcErr)
  | getProcessStats (pid : Int) (e : ProcErr)
deriving DecidableEq

deriving instance DecidableEq for Except

/-- View of the OS at one polling instant of the Stop Waiter: the outcome of
the liveness probe (kill with signal 0), and the result of re-opening the
process and reading its stat start time (outer Except for Process::new,
inner Except for stat()). -/
structure PollView where
  killOutcome : KillOutcome
  procResult : Except ProcErr (Except ProcErr Nat)
deriving DecidableEq

/-- Embedding of ProcessInfo::has_stopped: probe the PID with signal 0;
not-found means stopped; other probe errors propagate; if the PID is occupied,
re-read its start time and report stopped exactly when it differs from the
snapshot's recorded start time. -/
def ProcessInfo.has_stopped (p : ProcessInfo) (v : PollView) :
    Option (Except WaitStopError Bool) :=
  match send_signal p.pid 0 v.killOutcome with
  | none => none
  | some (Except.error (KillError.notFound _)) => some (Except.ok true)
  | some (Except.error e) => some (Except.error (WaitStopError.sendSignal0 p.pid e))
  | some (Except.ok _) =>
    match v.procResult with
    | Except.error e => some (Except.error (WaitStopError.getProcessInfo p.pid e))
    | Except.ok (Except.error e) => some (Except.error (WaitStopError.getProcessStats p.pid e))
    | Except.ok (Except.ok st) => some (Except.ok (st != p.start_time))

/-- Observable events of the lifecycle engine, used to state ordering and
occurrence properties: a discovery query, a signal sent to a PID, a blocking
sleep, and a spawn attempt with the environment passed to it. -/
inductive Event where
  | find (name : String)
  | signal (pid : Int) (sig : Int)
  | sleep (secs : Nat)
  | launch (cmd : String) (args : List String) (env : EnvMap)
deriving DecidableEq

/-- Tests whether an event is a spawn attempt. -/
def Event.isLaunch : Event → Bool
  | Event.launch _ _ _ => true
  | _ => false

/-- Tests whether an event is a signal delivery. -/
def Event.isSignal : Event → Bool
  | Event.signal _ _ => true
  | _ => false

/-- Tests whether an event is a discovery query. -/
def Event.isFind : Event → Bool
  | Event.find _ => true
  | _ => false

/-- Embedding of the polling loop of ProcessInfo::wait_stop over a schedule of
poll instants; each schedule entry carries the OS view at that poll and the
elapsed time observed right after it. The loop breaks successfully when a poll
reports the process stopped, or when the elapsed time exceeds the timeout;
errors of a poll propagate. An exhausted schedule (the loop would keep
polling beyond the modelled horizon) is none. Each poll emits the signal-0
probe event. -/
def wait_stop_aux (p : ProcessInfo) (timeout : Nat) :
    List (PollView × Nat) → Option (Except WaitStopError Unit) × List Event
  | [] => (none, [])
  | (v, elapsed) :: rest =>
    let ev := Event.signal p.pid 0
    match p.has_stopped v with
    | none => (none, [ev])
    | some (Except.error e) => (some (Except.error e), [ev])
    | some (Except.ok true) => (some (Except.ok ()), [ev])
    | some (Except.ok false) =>
      if timeout < elapsed then (some (Except.ok ()), [ev])
      else
        let r := wait_stop_aux p timeout rest
        (r.1, ev :: r.2)

/-- Embedding of ProcessInfo::wait_stop: runs the polling loop and, like the
Rust function, returns successfully both on a confirmed stop and on an
elapsed timeout. -/
def ProcessInfo.wait_stop (p : ProcessInfo) (timeout : Nat)
    (schedule : List (PollView × Nat)) :
    Option (Except WaitStopError Unit) × List Event :=
  wait_stop_aux p timeout schedule

/-- Error of process discovery, mirroring the Rust enum FindProcessError. -/
inductive FindProcessError where
  | getProcessList (e : ProcErr)
  | getProcess (e : ProcErr)
  | getEnv (pid : Int) (e : ProcErr)
  | getStat (pid : Int) (e : ProcErr)
  | rssBytes (pid : Int) (e : ProcErr)
deriving DecidableEq

/-- Stat record of a /proc entry as the watcher reads it: the command name,
the start time, and the result of converting the resident set size to bytes
(the rss_bytes method of procfs, which can itself fail). -/
structure Stat where
  comm : String
  starttime : Nat
  rss_bytes : Except ProcErr Nat
deriving DecidableEq

/-- Handle of one enumerated process: its PID and the results of the two
detail reads the watcher performs on it (stat and environ), each of which can
fail, for instance with a not-found error if the process disappeared after
enumeration. -/
structure ProcHandle where
  pid : Int
  stat : Except ProcErr Stat
  environ : Except ProcErr EnvMap
deriving DecidableEq

/-- Embedding of the per-process body of find_processes: propagate an
enumeration-item error, read stat, convert rss to bytes, compare the command
name, and read the environment only for a match; any read failure becomes the
corresponding typed error, and a non-matching process yields none. -/
def find_one (cmd_name : String) (entry : Except ProcErr ProcHandle) :
    Except FindProcessError (Option ProcessInfo) :=
  match entry with
  | Except.error e => Except.error (FindProcessError.getProcess e)
  | Except.ok process =>
    let pid := process.pid
    match process.stat with
    | Except.error e => Except.error (FindProcessError.getStat pid e)
    | Except.ok stat =>
      match stat.rss_bytes with
      | Except.error e => Except.error (FindProcessError.rssBytes pid e)
      | Except.ok rss =>
        let command := stat.comm
        if command = cmd_name then
          match process.environ with
          | Except.error e => Except.error (FindProcessError.getEnv pid e)
          | Except.ok env =>
            Except.ok (some ⟨pid, rss, env, stat.starttime, command⟩)
        else Except.ok none

/-- Embedding of the Rust combinator chain filter_map(Result::transpose)
followed by collect into a Result: stop at the first error, drop the skipped
entries, keep the matches in order. -/
def collectFiltered {ε α : Type} : List (Except ε (Option α)) → Except ε (List α)
  | [] => Except.ok []
  | Except.error e :: _ => Except.error e
  | Except.ok none :: rest => collectFiltered rest
  | Except.ok (some a) :: rest => (collectFiltered rest).map (a :: ·)

/-- Embedding of the Rust function find_processes: a failed table enumeration
is a GetProcessList error; otherwise each entry goes through find_one and the
results are collected, short-circuiting on the first error. -/
def find_processes (cmd_name : String)
    (table : Except ProcErr (List (Except ProcErr ProcHandle))) :
    Except FindProcessError (List ProcessInfo) :=
  match table with
  | Except.error e => Except.error (FindProcessError.getProcessList e)
  | Except.ok entries => collectFiltered (entries.map (find_one cmd_name))

/-- An input/output error of a spawn attempt, abstracting std io::Error. -/
inductive IoErr where
  | mk (code : Nat)
deriving DecidableEq

/-- Error of a spawn attempt, mirroring the Rust struct LaunchError wrapping
an io::Error source. -/
structure LaunchError where
  source : IoErr
deriving DecidableEq

/-- Builder state of a std::process::Command: program, accumulated arguments,
whether the inherited environment has been cleared, the explicitly supplied
environment entries, and whether stdout/stderr are redirected to null. -/
structure SpawnCommand where
  program : String
  cmdArgs : List String
  envClear : Bool
  envExplicit : EnvMap
  stdoutNull : Bool
  stderrNull : Bool
deriving DecidableEq

/-- Modelled from std: Command::new starts from the program with no arguments,
the parent environment inherited (not cleared) and no explicit entries. -/
def SpawnCommand.new (program : String) : SpawnCommand :=
  ⟨program, [], false, [], false, false⟩

/-- Modelled from std: Command::args appends arguments. -/
def SpawnCommand.addArgs (c : SpawnCommand) (args : List String) : SpawnCommand :=
  { c with cmdArgs := c.cmdArgs ++ args }

/-- Modelled from std: Command::env_clear removes every inherited variable and
every explicitly set one. -/
def SpawnCommand.env_clear (c : SpawnCommand) : SpawnCommand :=
  { c with envClear := true, envExplicit := [] }

/-- Modelled from std: Command::envs adds explicit environment entries. -/
def SpawnCommand.addEnvs (c : SpawnCommand) (m : EnvMap) : SpawnCommand :=
  { c with envExplicit := c.envExplicit ++ m }

/-- Modelled from std: the environment the spawned child actually receives,
given the parent process's environment: the inherited part (empty if cleared)
overridden by the explicit entries. -/
def SpawnCommand.effectiveEnv (parentEnv : EnvMap) (c : SpawnCommand) : EnvMap :=
  (if c.envClear then [] else parentEnv) ++ c.envExplicit

/-- Builder chain of launch_process, exactly as the Rust code writes it:
Command::new, args, env_clear, envs, stdout null, stderr null. -/
def launch_command (cmd : String) (args : List String) (environment : EnvMap) :
    SpawnCommand :=
  { (((SpawnCommand.new cmd).addArgs args).env_clear).addEnvs environment with
    stdoutNull := true, stderrNull := true }

/-- Embedding of the Rust function launch_process: builds the command, makes
one spawn attempt (whose OS-level result is the oracle spawnResult), wraps an
io failure into a LaunchError and returns the child PID on success. The spawn
attempt is recorded as a launch event carrying the supplied environment. -/
def launch_process (cmd : String) (args : List String) (environment : EnvMap)
    (spawnResult : Except IoErr Int) : Except LaunchError Int × List Event :=
  match spawnResult with
  | Except.error e => (Except.error ⟨e⟩, [Event.launch cmd args environment])
  | Except.ok child_id => (Except.ok child_id, [Event.launch cmd args environment])

/-- Error of an orchestrated restart, mirroring the Rust enum RestartError. -/
inductive RestartError where
  | terminate (e : KillError)
  | waitStop (e : WaitStopError)
  | launchProcess (e : LaunchError)
deriving DecidableEq

/-- Oracle inputs consumed by one orchestrated restart: the outcome of the
SIGTERM delivery, the polling schedule of the stop wait, and the OS result of
the spawn attempt. -/
structure RestartWorld where
  termOutcome : KillOutcome
  schedule : List (PollView × Nat)
  spawnResult : Except IoErr Int
deriving DecidableEq

/-- Embedding of ProcessInfo::restart_process: send SIGTERM to the recorded
PID (failure is fatal), wait for the process to stop (a timeout is not a
failure), then launch the replacement with the snapshot's own captured
environment. Events are accumulated in execution order. -/
def ProcessInfo.restart_process (p : ProcessInfo) (wait_timeout : Nat)
    (cmd : String) (args : List String) (w : RestartWorld) :
    Option (Except RestartError Int) × List Event :=
  let ev0 := Event.signal p.pid SIGTERM
  match send_signal p.pid SIGTERM w.termOutcome with
  | none => (none, [ev0])
  | some (Except.error e) => (some (Except.error (RestartError.terminate e)), [ev0])
  | some (Except.ok _) =>
    let wr := p.wait_stop wait_timeout w.schedule
    match wr.1 with
    | none => (none, ev0 :: wr.2)
    | some (Except.error e) => (some (Except.error (RestartError.waitStop e)), ev0 :: wr.2)
    | some (Except.ok _) =>
      let lr := launch_process cmd args p.env w.spawnResult
      match lr.1 with
      | Except.error e =>
        (some (Except.error (RestartError.launchProcess e)), ev0 :: wr.2 ++ lr.2)
      | Except.ok pid => (some (Except.ok pid), ev0 :: wr.2 ++ lr.2)

/-- Error of the post-restart verification, mirroring the Rust enum CheckError. -/
inductive CheckError where
  | checkFindProcesses (e : FindProcessError)
  | checkLaunchProcess (e : LaunchError)
deriving DecidableEq

/-- Oracle inputs consumed by the verification stage: the process table seen
by its discovery query after the grace period, and the OS result of the
corrective spawn attempt should one be made. -/
structure CheckWorld where
  table : Except ProcErr (List (Except ProcErr ProcHandle))
  spawnResult : Except IoErr Int
deriving DecidableEq

/-- Embedding of the Rust function check_process (the Verifying stage): sleep
for the 5-second grace period, re-run discovery by command name, and if no
discovered process's PID equals the new PID, make exactly one corrective
launch attempt with the supplied environment; no further verification
follows. -/
def check_process (program_name : String) (pid : Int) (cmd : String)
    (args : List String) (env : EnvMap) (w : CheckWorld) :
    Except CheckError Unit × List Event :=
  let ev0 := [Event.sleep 5, Event.find program_name]
  match find_processes program_name w.table with
  | Except.error e => (Except.error (CheckError.checkFindProcesses e), ev0)
  | Except.ok processes =>
    if processes.any (fun proc_info => proc_info.pid == pid) then
      (Except.ok (), ev0)
    else
      let lr := launch_process cmd args env w.spawnResult
      match lr.1 with
      | Except.error e => (Except.error (CheckError.checkLaunchProcess e), ev0 ++ lr.2)
      | Except.ok _ => (Except.ok (), ev0 ++ lr.2)

/-- Already-parsed command-line inputs of one run, mirroring the fields of
cmdargs::Args that the lifecycle engine consumes. -/
structure Args where
  name : String
  threshold : Nat
  timeout : Nat
  check : Bool
  command : String
  args : List String
deriving DecidableEq

/-- Top-level error of one run, mirroring the Rust enum RunError (the log
initialization error is external to the lifecycle engine and omitted). -/
inductive RunError where
  | findProcess (e : FindProcessError)
  | multipleFound (processes : List ProcessInfo)
  | processNotFound
  | restart (e : RestartError)
  | check (e : CheckError)
deriving DecidableEq

/-- Oracle inputs consumed by one whole run: the process table of the initial
discovery, the restart-stage oracles, and the verification-stage oracles. -/
structure RunWorld where
  table : Except ProcErr (List (Except ProcErr ProcHandle))
  restartWorld : RestartWorld
  checkWorld : CheckWorld
deriving DecidableEq

/-- Embedding of the Rust function run, after argument parsing and log setup:
discover by name, fail on more than one match or on none, read the single
match's resident memory, and when it exceeds the threshold clone the captured
environment, restart the process, and optionally verify the relaunch using
that cloned environment. -/
def run (a : Args) (w : RunWorld) : Option (Except RunError Unit) × List Event :=
  let ev0 := Event.find a.name
  match find_processes a.name w.table with
  | Except.error e => (some (Except.error (RunError.findProcess e)), [ev0])
  | Except.ok processes =>
    if processes.length > 1 then
      (some (Except.error (RunError.multipleFound processes)), [ev0])
    else
      match processes with
      | [] => (some (Except.error RunError.processNotFound), [ev0])
      | process :: _ =>
        let memory := process.rss
        if memory > a.threshold then
          let env := process.env
          let rr := process.restart_process a.timeout a.command a.args w.restartWorld
          match rr.1 with
          | none => (none, ev0 :: rr.2)
          | some (Except.error e) =>
            (some (Except.error (RunError.restart e)), ev0 :: rr.2)
          | some (Except.ok pid) =>
            if a.check then
              let cr := check_process a.name pid a.command a.args env w.checkWorld
              match cr.1 with
              | Except.error e =>
                (some (Except.error (RunError.check e)), ev0 :: rr.2 ++ cr.2)
              | Except.ok _ => (some (Except.ok ()), ev0 :: rr.2 ++ cr.2)
            else (some (Except.ok ()), ev0 :: rr.2)
        else (some (Except.ok ()), [ev0])

/-! Helper lemmas shared by several theorems. -/

/-- Every event emitted by the stop-wait polling loop is the signal-0 probe of
the targeted PID; in particular the loop never emits a launch event. -/
theorem wait_trace_only_signals (p : ProcessInfo) (t : Nat) :
    ∀ (sched : List (PollView × Nat)) (ev : Event),
      ev ∈ (wait_stop_aux p t sched).2 → ev = Event.signal p.pid 0 := by
  intro sched
  induction sched with
  | nil => intro ev h; simp [wait_stop_aux] at h
  | cons hd tl ih =>
    intro ev h
    obtain ⟨v, elapsed⟩ := hd
    cases hs : p.has_stopped v with
    | none => simp [wait_stop_aux, hs] at h; simp [h]
    | some r =>
      cases r with
      | error e => simp [wait_stop_aux, hs] at h; simp [h]
      | ok b =>
        cases b with
        | true => simp [wait_stop_aux, hs] at h; simp [h]
        | false =>
          simp only [wait_stop_aux, hs] at h
          by_cases ht : t < elapsed
          · simp [ht] at h; simp [h]
          · simp [ht] at h
            rcases h with h | h
            · simp [h]
            · exact ih ev h

/-- A sample process snapshot used by concrete witnesses. -/
def procA : ProcessInfo := ⟨42, 200000000, [("HOME", "/srv")], 17, "prog"⟩

/-- C7: send_signal returns Ok exactly on a zero return code of kill, maps the
errno values EINVAL, EPERM and ESRCH of a -1 return to the three typed
failures invalid-signal, permission-denied and process-not-found, and treats
any other errno or any other return code as an unreachable programming-logic
fault (modelled as none), not as a recoverable error. -/
theorem send_signal_outcomes (pid sig : Int) (k : KillOutcome) :
    (k.code = 0 → send_signal pid sig k = some (Except.ok ())) ∧
    (k.code = -1 →
      (k.errno = EINVAL →
        send_signal pid sig k = some (Except.error (KillError.invalidSignal sig))) ∧
      (k.errno = EPERM →
        send_signal pid sig k = some (Except.error (KillError.permissionDenied sig pid))) ∧
      (k.errno = ESRCH →
        send_signal pid sig k = some (Except.error (KillError.notFound pid))) ∧
      (k.errno ≠ EINVAL → k.errno ≠ EPERM → k.errno ≠ ESRCH →
        send_signal pid sig k = none)) ∧
    (k.code ≠ 0 → k.code ≠ -1 → send_signal pid sig k = none) := by
  refine ⟨?_, fun hc => ⟨?_, ?_, ?_, ?_⟩, ?_⟩ <;>
    intros <;>
    simp_all [send_signal, EINVAL, EPERM, ESRCH]

/-- Concrete instances of send_signal_outcomes: success, the three typed
failures, and the unreachable branch at an unexpected errno. -/
theorem send_signal_outcomes_witness :
    send_signal 42 15 ⟨0, 0⟩ = some (Except.ok ()) ∧
    send_signal 42 15 ⟨-1, 22⟩ = some (Except.error (KillError.invalidSignal 15)) ∧
    send_signal 42 15 ⟨-1, 1⟩ = some (Except.error (KillError.permissionDenied 15 42)) ∧
    send_signal 42 15 ⟨-1, 3⟩ = some (Except.error (KillError.notFound 42)) ∧
    send_signal 42 15 ⟨-1, 99⟩ = none ∧
    send_signal 42 15 ⟨7, 0⟩ = none :=
  ⟨(send_signal_outcomes 42 15 ⟨0, 0⟩).1 rfl,
   ((send_signal_outcomes 42 15 ⟨-1, 22⟩).2.1 rfl).1 rfl,
   ((send_signal_outcomes 42 15 ⟨-1, 1⟩).2.1 rfl).2.1 rfl,
   ((send_signal_outcomes 42 15 ⟨-1, 3⟩).2.1 rfl).2.2.1 rfl,
   ((send_signal_outcomes 42 15 ⟨-1, 99⟩).2.1 rfl).2.2.2 (by decide) (by decide) (by decide),
   (send_signal_outcomes 42 15 ⟨7, 0⟩).2.2 (by decide) (by decide)⟩

/-- C2: the Stop Waiter reports the targeted process stopped as soon as a poll
observes either a not-found liveness probe (kill with signal 0 fails with
ESRCH) or a start time of the still-occupied PID that differs from the
snapshot's recorded start time: in both cases has_stopped answers true and the
wait returns successfully at that very poll, whatever the rest of the schedule
and the timeout. -/
theorem stop_waiter_reports_stopped (p : ProcessInfo) (v : PollView)
    (t elapsed : Nat) (rest : List (PollView × Nat)) :
    (v.killOutcome = ⟨-1, ESRCH⟩ →
      p.has_stopped v = some (Except.ok true) ∧
      (p.wait_stop t ((v, elapsed) :: rest)).1 = some (Except.ok ())) ∧
    (∀ st : Nat, v.killOutcome.code = 0 → v.procResult = Except.ok (Except.ok st) →
      st ≠ p.start_time →
      p.has_stopped v = some (Except.ok true) ∧
      (p.wait_stop t ((v, elapsed) :: rest)).1 = some (Except.ok ())) := by
  constructor
  · intro hk
    have h1 : p.has_stopped v = some (Except.ok true) := by
      simp [ProcessInfo.has_stopped, send_signal, hk, EINVAL, EPERM, ESRCH]
    exact ⟨h1, by simp [ProcessInfo.wait_stop, wait_stop_aux, h1]⟩
  · intro st hk hp hne
    have h1 : p.has_stopped v = some (Except.ok true) := by
      simp [ProcessInfo.has_stopped, send_signal, hk, hp, bne_iff_ne, hne]
    exact ⟨h1, by simp [ProcessInfo.wait_stop, wait_stop_aux, h1]⟩

/-- Concrete instances of stop_waiter_reports_stopped: one poll where the
probe reports not-found, and one poll where PID 42 is occupied but its start
time 99 differs from the snapshot's 17. -/
theorem stop_waiter_reports_stopped_witness :
    (procA.has_stopped ⟨⟨-1, 3⟩, Except.error ProcErr.notFound⟩ =
        some (Except.ok true) ∧
      (procA.wait_stop 60 [(⟨⟨-1, 3⟩, Except.error ProcErr.notFound⟩, 1)]).1 =
        some (Except.ok ())) ∧
    (procA.has_stopped ⟨⟨0, 0⟩, Except.ok (Except.ok 99)⟩ =
        some (Except.ok true) ∧
      (procA.wait_stop 60 [(⟨⟨0, 0⟩, Except.ok (Except.ok 99)⟩, 1)]).1 =
        some (Except.ok ())) :=
  ⟨(stop_waiter_reports_stopped procA ⟨⟨-1, 3⟩, Except.error ProcErr.notFound⟩
      60 1 []).1 rfl,
   (stop_waiter_reports_stopped procA ⟨⟨0, 0⟩, Except.ok (Except.ok 99)⟩
      60 1 []).2 99 rfl rfl (by decide)⟩

/-- A poll view whose liveness probe reports not-found: the target stopped. -/
def vStopped : PollView := ⟨⟨-1, 3⟩, Except.error ProcErr.notFound⟩

/-- A poll view where PID 42 is occupied and its start time still equals
procA's recorded start time 17: the target is still running. -/
def vRunning : PollView := ⟨⟨0, 0⟩, Except.ok (Except.ok 17)⟩

/-- A restart-stage oracle where SIGTERM delivery succeeds, the first poll
sees the target stopped, and the spawn yields child PID 50. -/
def wA : RestartWorld := ⟨⟨0, 0⟩, [(vStopped, 1)], Except.ok 50⟩

/-- C4: wait_stop returns successfully both when a poll confirms the process
stopped and when the elapsed time exceeds the timeout with the process still
running, and whenever the termination signal succeeded and the wait returned
(in either way), the restart sequence still proceeds to a relaunch attempt. -/
theorem wait_stop_timeout_not_error (p : ProcessInfo) (t elapsed : Nat)
    (v : PollView) (rest : List (PollView × Nat)) (cmd : String)
    (args : List String) (w : RestartWorld) :
    (p.has_stopped v = some (Except.ok true) →
      (p.wait_stop t ((v, elapsed) :: rest)).1 = some (Except.ok ())) ∧
    (p.has_stopped v = some (Except.ok false) → t < elapsed →
      (p.wait_stop t ((v, elapsed) :: rest)).1 = some (Except.ok ())) ∧
    (send_signal p.pid SIGTERM w.termOutcome = some (Except.ok ()) →
      (p.wait_stop t w.schedule).1 = some (Except.ok ()) →
      ∃ c a e, Event.launch c a e ∈ (p.restart_process t cmd args w).2) := by
  refine ⟨?_, ?_, ?_⟩
  · intro h
    simp [ProcessInfo.wait_stop, wait_stop_aux, h]
  · intro h ht
    simp [ProcessInfo.wait_stop, wait_stop_aux, h, ht]
  · intro hs hw
    refine ⟨cmd, args, p.env, ?_⟩
    cases hsp : w.spawnResult with
    | error e => simp [ProcessInfo.restart_process, hs, hw, launch_process, hsp]
    | ok pid => simp [ProcessInfo.restart_process, hs, hw, launch_process, hsp]

/-- Concrete instances of wait_stop_timeout_not_error: a confirmed stop, an
elapsed timeout with the target still running, and a restart world in which
the relaunch attempt is indeed reached. -/
theorem wait_stop_timeout_not_error_witness :
    (procA.wait_stop 60 [(vStopped, 1)]).1 = some (Except.ok ()) ∧
    (procA.wait_stop 0 [(vRunning, 1)]).1 = some (Except.ok ()) ∧
    ∃ c a e, Event.launch c a e ∈ (procA.restart_process 60 "cmd" ["-x"] wA).2 :=
  ⟨(wait_stop_timeout_not_error procA 60 1 vStopped [] "cmd" ["-x"] wA).1
      (by decide),
   (wait_stop_timeout_not_error procA 0 1 vRunning [] "cmd" ["-x"] wA).2.1
      (by decide) (by decide),
   (wait_stop_timeout_not_error procA 60 1 vStopped [] "cmd" ["-x"] wA).2.2
      (by decide) (by decide)⟩

/-- C6: whenever an orchestrated restart makes a relaunch attempt, the very
first event of the restart is the SIGTERM delivery to the original PID, that
delivery succeeded, the stop wait completed (stopped or timed out)
successfully, and the whole trace is exactly the termination signal, then the
wait's probes, then the single launch — so a replacement is never launched
before the attempt to stop the original has been made and waited on. -/
theorem restart_stop_before_launch (p : ProcessInfo) (t : Nat) (cmd : String)
    (args : List String) (w : RestartWorld) (ev : Event)
    (hmem : ev ∈ (p.restart_process t cmd args w).2) (hl : ev.isLaunch = true) :
    (p.restart_process t cmd args w).2.head? =
      some (Event.signal p.pid SIGTERM) ∧
    send_signal p.pid SIGTERM w.termOutcome = some (Except.ok ()) ∧
    (p.wait_stop t w.schedule).1 = some (Except.ok ()) ∧
    (p.restart_process t cmd args w).2 =
      Event.signal p.pid SIGTERM ::
        ((p.wait_stop t w.schedule).2 ++ [Event.launch cmd args p.env]) := by
  cases hs : send_signal p.pid SIGTERM w.termOutcome with
  | none =>
    simp only [ProcessInfo.restart_process, hs] at hmem
    simp at hmem
    simp [hmem, Event.isLaunch] at hl
  | some r =>
    cases r with
    | error e =>
      simp only [ProcessInfo.restart_process, hs] at hmem
      simp at hmem
      simp [hmem, Event.isLaunch] at hl
    | ok u =>
      cases hw : (p.wait_stop t w.schedule).1 with
      | none =>
        simp only [ProcessInfo.restart_process, hs, hw] at hmem
        rcases List.mem_cons.1 hmem with h | h
        · simp [h, Event.isLaunch] at hl
        · have hsig := wait_trace_only_signals p t w.schedule ev h
          simp [hsig, Event.isLaunch] at hl
      | some r2 =>
        cases r2 with
        | error e =>
          simp only [ProcessInfo.restart_process, hs, hw] at hmem
          rcases List.mem_cons.1 hmem with h | h
          · simp [h, Event.isLaunch] at hl
          · have hsig := wait_trace_only_signals p t w.schedule ev h
            simp [hsig, Event.isLaunch] at hl
        | ok u2 =>
          cases u
          cases u2
          have htr : (p.restart_process t cmd args w).2 =
              Event.signal p.pid SIGTERM ::
                ((p.wait_stop t w.schedule).2 ++
                  [Event.launch cmd args p.env]) := by
            cases hsp : w.spawnResult with
            | error e2 =>
              simp [ProcessInfo.restart_process, hs, hw, launch_process, hsp]
            | ok pid2 =>
              simp [ProcessInfo.restart_process, hs, hw, launch_process, hsp]
          exact ⟨by simp [htr], by simp [hs], by simp [hw], htr⟩

/-- Concrete instance of restart_stop_before_launch: in the restart world wA
the launch attempt occurs, and the trace is exactly the SIGTERM delivery,
one probe, then the launch. -/
theorem restart_stop_before_launch_witness :
    (procA.restart_process 60 "cmd" ["-x"] wA).2.head? =
      some (Event.signal procA.pid SIGTERM) ∧
    send_signal procA.pid SIGTERM wA.termOutcome = some (Except.ok ()) ∧
    (procA.wait_stop 60 wA.schedule).1 = some (Except.ok ()) ∧
    (procA.restart_process 60 "cmd" ["-x"] wA).2 =
      Event.signal procA.pid SIGTERM ::
        ((procA.wait_stop 60 wA.schedule).2 ++
          [Event.launch "cmd" ["-x"] procA.env]) :=
  restart_stop_before_launch procA 60 "cmd" ["-x"] wA
    (Event.launch "cmd" ["-x"] procA.env) (by decide) (by decide)

/-- A process-table handle for PID 42 running the program named prog with
start time 555, resident memory 1000 bytes and one environment variable. -/
def handleA : ProcHandle :=
  ⟨42, Except.ok ⟨"prog", 555, Except.ok 1000⟩, Except.ok [("HOME", "/srv")]⟩

/-- A handle identical to handleA except that the start time is 556: a
different process instance occupying the same PID. -/
def handleB : ProcHandle :=
  ⟨42, Except.ok ⟨"prog", 556, Except.ok 1000⟩, Except.ok [("HOME", "/srv")]⟩

/-- Verification-stage oracle in which discovery sees only handleA. -/
def cwA : CheckWorld := ⟨Except.ok [Except.ok handleA], Except.ok 77⟩

/-- Verification-stage oracle in which discovery sees only handleB. -/
def cwB : CheckWorld := ⟨Except.ok [Except.ok handleB], Except.ok 77⟩

/-- C5: when verification runs and the new PID is not among the processes
discovered after the grace period, exactly one corrective relaunch attempt is
made and discovery is not re-run (one find event, one launch event); when the
PID is found, no corrective relaunch is made at all. -/
theorem check_single_corrective_relaunch (n : String) (pid : Int) (cmd : String)
    (args : List String) (env : EnvMap) (w : CheckWorld) (ps : List ProcessInfo)
    (hf : find_processes n w.table = Except.ok ps) :
    (ps.any (fun q => q.pid == pid) = false →
      (check_process n pid cmd args env w).2 =
        [Event.sleep 5, Event.find n, Event.launch cmd args env] ∧
      (check_process n pid cmd args env w).2.countP Event.isLaunch = 1 ∧
      (check_process n pid cmd args env w).2.countP Event.isFind = 1) ∧
    (ps.any (fun q => q.pid == pid) = true →
      (check_process n pid cmd args env w).2 = [Event.sleep 5, Event.find n] ∧
      (check_process n pid cmd args env w).2.countP Event.isLaunch = 0) := by
  constructor
  · intro h
    have htr : (check_process n pid cmd args env w).2 =
        [Event.sleep 5, Event.find n, Event.launch cmd args env] := by
      cases hsp : w.spawnResult with
      | error e => simp [check_process, hf, h, launch_process, hsp]
      | ok pid2 => simp [check_process, hf, h, launch_process, hsp]
    exact ⟨htr, by simp [htr, List.countP_cons, Event.isLaunch, Event.isFind]⟩
  · intro h
    have htr : (check_process n pid cmd args env w).2 =
        [Event.sleep 5, Event.find n] := by
      simp [check_process, hf, h]
    exact ⟨htr, by simp [htr, List.countP_cons, Event.isLaunch]⟩

/-- Concrete instances of check_single_corrective_relaunch: the new PID 99 is
absent, so exactly one corrective launch happens; the new PID 42 is present,
so none happens. -/
theorem check_single_corrective_relaunch_witness :
    ((check_process "prog" 99 "cmd" [] [("A", "B")] cwA).2 =
        [Event.sleep 5, Event.find "prog", Event.launch "cmd" [] [("A", "B")]] ∧
      (check_process "prog" 99 "cmd" [] [("A", "B")] cwA).2.countP
          Event.isLaunch = 1 ∧
      (check_process "prog" 99 "cmd" [] [("A", "B")] cwA).2.countP
          Event.isFind = 1) ∧
    ((check_process "prog" 42 "cmd" [] [("A", "B")] cwA).2 =
        [Event.sleep 5, Event.find "prog"] ∧
      (check_process "prog" 42 "cmd" [] [("A", "B")] cwA).2.countP
          Event.isLaunch = 0) :=
  ⟨(check_single_corrective_relaunch "prog" 99 "cmd" [] [("A", "B")] cwA
      [⟨42, 1000, [("HOME", "/srv")], 555, "prog"⟩] (by decide)).1 (by decide),
   (check_single_corrective_relaunch "prog" 42 "cmd" [] [("A", "B")] cwA
      [⟨42, 1000, [("HOME", "/srv")], 555, "prog"⟩] (by decide)).2 (by decide)⟩

/-- Whether any discovered process carries a given PID depends only on the
list of PIDs. -/
theorem any_pid_eq_map (pid : Int) :
    ∀ ps : List ProcessInfo,
      ps.any (fun q => q.pid == pid) =
        (ps.map ProcessInfo.pid).any (fun x => x == pid) := by
  intro ps
  induction ps with
  | nil => rfl
  | cons h t ih => simp [List.any_cons, ih]

/-- C1 counterexample: two verification runs identical except for the
discovered occupant's start time (555 in cwA, 556 in cwB) both accept the
occupant of PID 42 and make no corrective launch. At most one of the two
start times can belong to the actually relaunched instance, so verification
accepts a process that is merely a process whose PID equals the new PID: it
is not keyed on the (pid, startTime) pair. -/
theorem check_accepts_mere_pid_match :
    ((check_process "prog" 42 "cmd" [] [] cwA).1 = Except.ok () ∧
      (check_process "prog" 42 "cmd" [] [] cwA).2.countP Event.isLaunch = 0) ∧
    ((check_process "prog" 42 "cmd" [] [] cwB).1 = Except.ok () ∧
      (check_process "prog" 42 "cmd" [] [] cwB).2.countP Event.isLaunch = 0) := by
  decide

/-- C1 amended: in the post-restart Verifying stage identity of the
relaunched process is keyed on the PID alone: the outcome of verification is
unchanged by any change of the discovered processes that preserves their
PIDs (in particular by any change of start times), and any discovered
process whose PID equals the new PID is accepted with no corrective
relaunch. -/
theorem check_identity_keyed_on_pid_alone (n : String) (pid : Int)
    (cmd : String) (args : List String) (env : EnvMap) (w w' : CheckWorld)
    (ps ps' : List ProcessInfo)
    (hf : find_processes n w.table = Except.ok ps)
    (hf' : find_processes n w'.table = Except.ok ps')
    (hpids : ps.map ProcessInfo.pid = ps'.map ProcessInfo.pid)
    (hspawn : w.spawnResult = w'.spawnResult) :
    check_process n pid cmd args env w = check_process n pid cmd args env w' ∧
    (ps.any (fun q => q.pid == pid) = true →
      (check_process n pid cmd args env w).1 = Except.ok () ∧
      (check_process n pid cmd args env w).2.countP Event.isLaunch = 0) := by
  have hany : ps.any (fun q => q.pid == pid) =
      ps'.any (fun q => q.pid == pid) := by
    rw [any_pid_eq_map, any_pid_eq_map, hpids]
  constructor
  · simp only [check_process, hf, hf', hany, hspawn]
  · intro h
    constructor
    · simp [check_process, hf, h]
    · simp [check_process, hf, h, List.countP_cons, Event.isLaunch]

/-- Concrete instance of check_identity_keyed_on_pid_alone: the worlds cwA
and cwB differ only in the occupant's start time, verification behaves
identically on them and accepts PID 42. -/
theorem check_identity_keyed_on_pid_alone_witness :
    check_process "prog" 42 "cmd" [] [] cwA =
      check_process "prog" 42 "cmd" [] [] cwB ∧
    ((check_process "prog" 42 "cmd" [] [] cwA).1 = Except.ok () ∧
      (check_process "prog" 42 "cmd" [] [] cwA).2.countP Event.isLaunch = 0) :=
  ⟨(check_identity_keyed_on_pid_alone "prog" 42 "cmd" [] [] cwA cwB
      [⟨42, 1000, [("HOME", "/srv")], 555, "prog"⟩]
      [⟨42, 1000, [("HOME", "/srv")], 556, "prog"⟩]
      (by decide) (by decide) (by decide) (by decide)).1,
   (check_identity_keyed_on_pid_alone "prog" 42 "cmd" [] [] cwA cwB
      [⟨42, 1000, [("HOME", "/srv")], 555, "prog"⟩]
      [⟨42, 1000, [("HOME", "/srv")], 556, "prog"⟩]
      (by decide) (by decide) (by decide) (by decide)).2 (by decide)⟩

/-- C3 counterexample: one enumerated process (PID 7) disappears before its
stat detail-read, so the read fails with a not-found error. find_processes
returns the typed GetStat discovery error; it does not silently skip the
entry, which would have yielded the successful empty result. -/
theorem find_processes_vanished_not_skipped :
    find_processes "prog"
        (Except.ok
          [Except.ok ⟨7, Except.error ProcErr.notFound,
            Except.error ProcErr.notFound⟩]) =
      Except.error (FindProcessError.getStat 7 ProcErr.notFound) := by
  decide

/-- C3 amended: every detail-read failure is surfaced as a typed discovery
error, including the not-found failure of a process that disappears between
enumeration and the detail-read of its stats or environment; find_processes
silently skips only processes whose command name does not match. -/
theorem find_processes_surfaces_detail_failures (n : String) (h : ProcHandle)
    (rest : List (Except ProcErr ProcHandle)) (e : ProcErr) :
    (h.stat = Except.error e →
      find_processes n (Except.ok (Except.ok h :: rest)) =
        Except.error (FindProcessError.getStat h.pid e)) ∧
    (∀ (st : Stat) (rb : Nat), h.stat = Except.ok st →
      st.rss_bytes = Except.ok rb → st.comm = n →
      h.environ = Except.error e →
      find_processes n (Except.ok (Except.ok h :: rest)) =
        Except.error (FindProcessError.getEnv h.pid e)) ∧
    (∀ (st : Stat) (rb : Nat), h.stat = Except.ok st →
      st.rss_bytes = Except.ok rb → st.comm ≠ n →
      find_processes n (Except.ok (Except.ok h :: rest)) =
        find_processes n (Except.ok rest)) := by
  refine ⟨?_, ?_, ?_⟩
  · intro hs
    simp [find_processes, collectFiltered, find_one, hs]
  · intro st rb hs hrb hc he
    simp [find_processes, collectFiltered, find_one, hs, hrb, hc, he]
  · intro st rb hs hrb hc
    simp [find_processes, collectFiltered, find_one, hs, hrb, hc]

/-- Concrete instances of find_processes_surfaces_detail_failures: a process
vanished before the stat read, a matching process whose environment read is
denied, and a process skipped only because its command name differs. -/
theorem find_processes_surfaces_detail_failures_witness :
    find_processes "prog"
        (Except.ok
          [Except.ok ⟨8, Except.error ProcErr.notFound, Except.ok []⟩]) =
      Except.error (FindProcessError.getStat 8 ProcErr.notFound) ∧
    find_processes "prog"
        (Except.ok
          [Except.ok ⟨9, Except.ok ⟨"prog", 1, Except.ok 4096⟩,
            Except.error ProcErr.permissionDenied⟩]) =
      Except.error (FindProcessError.getEnv 9 ProcErr.permissionDenied) ∧
    find_processes "prog"
        (Except.ok
          [Except.ok ⟨10, Except.ok ⟨"other", 1, Except.ok 4096⟩,
            Except.ok []⟩]) =
      find_processes "prog" (Except.ok []) :=
  ⟨(find_processes_surfaces_detail_failures "prog"
      ⟨8, Except.error ProcErr.notFound, Except.ok []⟩ [] ProcErr.notFound).1
      rfl,
   (find_processes_surfaces_detail_failures "prog"
      ⟨9, Except.ok ⟨"prog", 1, Except.ok 4096⟩,
        Except.error ProcErr.permissionDenied⟩ []
      ProcErr.permissionDenied).2.1 ⟨"prog", 1, Except.ok 4096⟩ 4096
      rfl rfl rfl rfl,
   (find_processes_surfaces_detail_failures "prog"
      ⟨10, Except.ok ⟨"other", 1, Except.ok 4096⟩, Except.ok []⟩ []
      ProcErr.other).2.2 ⟨"other", 1, Except.ok 4096⟩ 4096 rfl rfl
      (by decide)⟩

/-- C8: launch builds the spawn command with env_clear before envs, so the
spawned process's effective environment is exactly the supplied mapping for
every possible watchdog environment — nothing of the watchdog's own
environment is inherited — and on spawn success the new process's PID is
returned. The command and arguments are passed through unchanged. -/
theorem launch_replaces_environment (cmd : String) (args : List String)
    (environment parentEnv : EnvMap) (pid : Int) :
    SpawnCommand.effectiveEnv parentEnv (launch_command cmd args environment) =
      environment ∧
    (launch_command cmd args environment).program = cmd ∧
    (launch_command cmd args environment).cmdArgs = args ∧
    (launch_process cmd args environment (Except.ok pid)).1 = Except.ok pid := by
  refine ⟨?_, rfl, ?_, rfl⟩
  · simp [SpawnCommand.effectiveEnv, launch_command, SpawnCommand.new,
      SpawnCommand.addArgs, SpawnCommand.env_clear, SpawnCommand.addEnvs]
  · simp [launch_command, SpawnCommand.new, SpawnCommand.addArgs,
      SpawnCommand.env_clear, SpawnCommand.addEnvs]

/-- Every launch event emitted by an orchestrated restart carries the
configured command and arguments and the snapshot's own captured
environment. -/
theorem restart_launch_events (p : ProcessInfo) (t : Nat) (cmd : String)
    (args : List String) (w : RestartWorld) (c : String) (a : List String)
    (e : EnvMap)
    (hmem : Event.launch c a e ∈ (p.restart_process t cmd args w).2) :
    c = cmd ∧ a = args ∧ e = p.env := by
  cases hs : send_signal p.pid SIGTERM w.termOutcome with
  | none =>
    simp only [ProcessInfo.restart_process, hs] at hmem
    simp at hmem
  | some r =>
    cases r with
    | error er =>
      simp only [ProcessInfo.restart_process, hs] at hmem
      simp at hmem
    | ok u =>
      cases hw : (p.wait_stop t w.schedule).1 with
      | none =>
        simp only [ProcessInfo.restart_process, hs, hw] at hmem
        rcases List.mem_cons.1 hmem with h | h
        · simp at h
        · have hsig := wait_trace_only_signals p t w.schedule _ h
          simp at hsig
      | some r2 =>
        cases r2 with
        | error er =>
          simp only [ProcessInfo.restart_process, hs, hw] at hmem
          rcases List.mem_cons.1 hmem with h | h
          · simp at h
          · have hsig := wait_trace_only_signals p t w.schedule _ h
            simp at hsig
        | ok u2 =>
          have hmem2 : Event.launch c a e ∈
              Event.signal p.pid SIGTERM ::
                ((p.wait_stop t w.schedule).2 ++
                  [Event.launch cmd args p.env]) := by
            cases hsp : w.spawnResult with
            | error e2 =>
              simpa [ProcessInfo.restart_process, hs, hw, launch_process,
                hsp] using hmem
            | ok pid2 =>
              simpa [ProcessInfo.restart_process, hs, hw, launch_process,
                hsp] using hmem
          rcases List.mem_cons.1 hmem2 with h | h
          · simp at h
          · rcases List.mem_append.1 h with h2 | h2
            · have hsig := wait_trace_only_signals p t w.schedule _ h2
              simp at hsig
            · simpa using h2

/-- Every launch event emitted by the verification stage carries the
configured command and arguments and the environment the stage was given. -/
theorem check_launch_events (n : String) (pid : Int) (cmd : String)
    (args : List String) (env : EnvMap) (w : CheckWorld) (c : String)
    (a : List String) (e : EnvMap)
    (hmem : Event.launch c a e ∈ (check_process n pid cmd args env w).2) :
    c = cmd ∧ a = args ∧ e = env := by
  cases hf : find_processes n w.table with
  | error er => simp [check_process, hf] at hmem
  | ok ps =>
    by_cases h : ps.any (fun q => q.pid == pid)
    · simp [check_process, hf, h] at hmem
    · cases hsp : w.spawnResult with
      | error e2 =>
        simp [check_process, hf, h, launch_process, hsp] at hmem
        exact hmem
      | ok pid2 =>
        simp [check_process, hf, h, launch_process, hsp] at hmem
        exact hmem

/-- C9: when the initial discovery yields zero matches or more than one
match, the run fails with the corresponding typed ambiguity error
(multiple-found or process-not-found), its entire trace is the single
discovery query, and in particular no termination signal is sent and no
relaunch is performed. -/
theorem run_ambiguity_no_action (a : Args) (w : RunWorld)
    (ps : List ProcessInfo)
    (hf : find_processes a.name w.table = Except.ok ps)
    (hne : ps.length ≠ 1) :
    (run a w).1 = some (Except.error
      (if ps.length > 1 then RunError.multipleFound ps
        else RunError.processNotFound)) ∧
    (run a w).2 = [Event.find a.name] ∧
    ∀ ev ∈ (run a w).2, ev.isSignal = false ∧ ev.isLaunch = false := by
  by_cases hgt : ps.length > 1
  · have hrun : run a w =
        (some (Except.error (RunError.multipleFound ps)),
          [Event.find a.name]) := by
      simp [run, hf, hgt]
    refine ⟨?_, ?_, ?_⟩ <;>
      simp [hrun, hgt, Event.isSignal, Event.isLaunch]
  · have h0 : ps = [] := by
      cases ps with
      | nil => rfl
      | cons x xs =>
        cases xs with
        | nil => simp at hne
        | cons y ys =>
          exfalso
          apply hgt
          simp
    subst h0
    have hrun : run a w =
        (some (Except.error RunError.processNotFound),
          [Event.find a.name]) := by
      simp [run, hf]
    refine ⟨?_, ?_, ?_⟩ <;>
      simp [hrun, Event.isSignal, Event.isLaunch]

/-- Concrete instances of run_ambiguity_no_action: two processes named prog
share the command name (ambiguous), and no process named prog exists. -/
theorem run_ambiguity_no_action_witness :
    ((run ⟨"prog", 100, 60, true, "cmd", ["-x"]⟩
        ⟨Except.ok [Except.ok handleA, Except.ok handleB], wA, cwA⟩).1 =
      some (Except.error (RunError.multipleFound
        [⟨42, 1000, [("HOME", "/srv")], 555, "prog"⟩,
         ⟨42, 1000, [("HOME", "/srv")], 556, "prog"⟩])) ∧
      (run ⟨"prog", 100, 60, true, "cmd", ["-x"]⟩
        ⟨Except.ok [Except.ok handleA, Except.ok handleB], wA, cwA⟩).2 =
        [Event.find "prog"]) ∧
    ((run ⟨"prog", 100, 60, true, "cmd", ["-x"]⟩
        ⟨Except.ok [], wA, cwA⟩).1 =
      some (Except.error RunError.processNotFound) ∧
      (run ⟨"prog", 100, 60, true, "cmd", ["-x"]⟩
        ⟨Except.ok [], wA, cwA⟩).2 = [Event.find "prog"]) :=
  ⟨⟨(run_ambiguity_no_action ⟨"prog", 100, 60, true, "cmd", ["-x"]⟩
      ⟨Except.ok [Except.ok handleA, Except.ok handleB], wA, cwA⟩
      [⟨42, 1000, [("HOME", "/srv")], 555, "prog"⟩,
       ⟨42, 1000, [("HOME", "/srv")], 556, "prog"⟩]
      (by decide) (by decide)).1,
    (run_ambiguity_no_action ⟨"prog", 100, 60, true, "cmd", ["-x"]⟩
      ⟨Except.ok [Except.ok handleA, Except.ok handleB], wA, cwA⟩
      [⟨42, 1000, [("HOME", "/srv")], 555, "prog"⟩,
       ⟨42, 1000, [("HOME", "/srv")], 556, "prog"⟩]
      (by decide) (by decide)).2.1⟩,
   ⟨(run_ambiguity_no_action ⟨"prog", 100, 60, true, "cmd", ["-x"]⟩
      ⟨Except.ok [], wA, cwA⟩ [] (by decide) (by decide)).1,
    (run_ambiguity_no_action ⟨"prog", 100, 60, true, "cmd", ["-x"]⟩
      ⟨Except.ok [], wA, cwA⟩ [] (by decide) (by decide)).2.1⟩⟩

/-- C10: every spawn attempt a run makes — the relaunch inside the restart
and the corrective relaunch of the verification stage — is invoked with the
configured command and arguments and with the environment mapping captured
in the discovered process's snapshot, which run clones before the restart
consumes the snapshot and passes unchanged to the verification step. -/
theorem run_launches_use_snapshot_env (a : Args) (w : RunWorld)
    (p : ProcessInfo) (rest : List ProcessInfo)
    (hf : find_processes a.name w.table = Except.ok (p :: rest))
    (c : String) (ar : List String) (e : EnvMap)
    (hmem : Event.launch c ar e ∈ (run a w).2) :
    c = a.command ∧ ar = a.args ∧ e = p.env := by
  by_cases hgt : (p :: rest).length > 1
  · have hrest : 0 < rest.length := by simpa using hgt
    have htr : (run a w).2 = [Event.find a.name] := by
      simp [run, hf, hrest]
    rw [htr] at hmem
    simp at hmem
  · have hrest : rest = [] := by
      cases rest with
      | nil => rfl
      | cons y ys => exact absurd (by simp) hgt
    subst hrest
    by_cases hm : p.rss > a.threshold
    · cases hr : (p.restart_process a.timeout a.command a.args
          w.restartWorld).1 with
      | none =>
        have htr : (run a w).2 =
            Event.find a.name ::
              (p.restart_process a.timeout a.command a.args
                w.restartWorld).2 := by
          simp [run, hf, hgt, hm, hr]
        rw [htr] at hmem
        rcases List.mem_cons.1 hmem with h | h
        · simp at h
        · exact restart_launch_events p a.timeout a.command a.args
            w.restartWorld c ar e h
      | some r =>
        cases r with
        | error er =>
          have htr : (run a w).2 =
              Event.find a.name ::
                (p.restart_process a.timeout a.command a.args
                  w.restartWorld).2 := by
            simp [run, hf, hgt, hm, hr]
          rw [htr] at hmem
          rcases List.mem_cons.1 hmem with h | h
          · simp at h
          · exact restart_launch_events p a.timeout a.command a.args
              w.restartWorld c ar e h
        | ok pidNew =>
          by_cases hc : a.check
          · have htr : (run a w).2 =
                Event.find a.name ::
                  ((p.restart_process a.timeout a.command a.args
                      w.restartWorld).2 ++
                    (check_process a.name pidNew a.command a.args p.env
                      w.checkWorld).2) := by
              cases hcr : (check_process a.name pidNew a.command a.args p.env
                  w.checkWorld).1 with
              | error er2 => simp [run, hf, hgt, hm, hr, hc, hcr]
              | ok u => simp [run, hf, hgt, hm, hr, hc, hcr]
            rw [htr] at hmem
            rcases List.mem_cons.1 hmem with h | h
            · simp at h
            · rcases List.mem_append.1 h with h2 | h2
              · exact restart_launch_events p a.timeout a.command a.args
                  w.restartWorld c ar e h2
              · exact check_launch_events a.name pidNew a.command a.args
                  p.env w.checkWorld c ar e h2
          · have htr : (run a w).2 =
                Event.find a.name ::
                  (p.restart_process a.timeout a.command a.args
                    w.restartWorld).2 := by
              simp [run, hf, hgt, hm, hr, hc]
            rw [htr] at hmem
            rcases List.mem_cons.1 hmem with h | h
            · simp at h
            · exact restart_launch_events p a.timeout a.command a.args
                w.restartWorld c ar e h
    · have htr : (run a w).2 = [Event.find a.name] := by
        simp [run, hf, hgt, hm]
      rw [htr] at hmem
      simp at hmem

/-- Concrete instance of run_launches_use_snapshot_env: a full run in which
the threshold is exceeded, the restart relaunches, and the verification
stage (which does not find the new PID 50) makes its corrective relaunch;
the corrective launch event carries the environment captured from the
discovered process. -/
theorem run_launches_use_snapshot_env_witness :
    "cmd" = (⟨"prog", 100, 60, true, "cmd", ["-x"]⟩ : Args).command ∧
    ["-x"] = (⟨"prog", 100, 60, true, "cmd", ["-x"]⟩ : Args).args ∧
    [("HOME", "/srv")] =
      (⟨42, 1000, [("HOME", "/srv")], 555, "prog"⟩ : ProcessInfo).env :=
  run_launches_use_snapshot_env ⟨"prog", 100, 60, true, "cmd", ["-x"]⟩
    ⟨Except.ok [Except.ok handleA], wA, cwA⟩
    ⟨42, 1000, [("HOME", "/srv")], 555, "prog"⟩ [] (by decide)
    "cmd" ["-x"] [("HOME", "/srv")] (by decide)

end MemoryWatcher
